import Mathlib

/-!
Verification of the event_manager user-management backend.

Shallow embedding of `app/utils/link_generation.py`, the `register` and
`login` handlers of `app/routers/user_routes.py`, and
`SMTPClient.send_email` of `app/utils/smtp_connection.py`.

Python `int` is modelled by `Int`; Python `//` (floor division) by
`Int.fdiv`; a Python `dict` whose insertion order matters is modelled by an
association list `List (String × String)` with `dict.update` semantics
(replace the value in place when the key exists, append otherwise); a Python
function that can raise is modelled by `Option`/`Except`.
-/

namespace EventManager

/-- Query parameters of a link, in the order they are rendered.
`dictInsert d kv` is one step of Python `dict.update`: if `kv.1` is already a
key of `d` its value is replaced in place, otherwise the pair is appended. -/
def dictInsert (d : List (String × String)) (kv : String × String) :
    List (String × String) :=
  if (d.lookup kv.1).isSome then
    d.map (fun p => if p.1 = kv.1 then (kv.1, kv.2) else p)
  else
    d ++ [kv]

/-- Python `d.update(kvs)` over an association list: fold `dictInsert`. -/
def dictUpdate (d : List (String × String)) (kvs : List (String × String)) :
    List (String × String) :=
  kvs.foldl dictInsert d

/-- `app/schemas/link_schema.py` `Link` as used by `link_generation.py`:
a relation name and a target address (the schema file only adds an HTTP
method and action hint that the claims do not touch). -/
structure Link where
  rel : String
  href : String
deriving Repr, DecidableEq

/-- `app/schemas/pagination_schema.py` `PaginationLink` as used by
`link_generation.py`: relation and href, with the query parameters that the
href is rendered from kept explicit (`href = base ++ "?" ++ renderQuery params`). -/
structure PaginationLink where
  rel : String
  href : String
  params : List (String × String)
deriving Repr, DecidableEq

/-- `"&".join(f"{k}={v}" for k, v in query_params.items())` in
`generate_pagination_links`. -/
def renderQuery (ps : List (String × String)) : String :=
  String.intercalate "&" (ps.map fun kv => kv.1 ++ "=" ++ kv.2)

/-- The base URL hard-coded in `generate_pagination_links`. -/
def base_url_users : String := "http://testserver/users"

/-- Build a `PaginationLink` for `generate_pagination_links`: each link there
has `href = f"{base_url}?{query}"` where `query` renders the given
parameters in order. -/
def mkPaginationLink (rel : String) (params : List (String × String)) :
    PaginationLink :=
  ⟨rel, base_url_users ++ "?" ++ renderQuery params, params⟩

/-- The `skip`/`limit` query-parameter pair, rendered the way the f-strings
`f"skip={n}&limit={m}"` stringify Python ints. -/
def pageParams (skip limit : Int) : List (String × String) :=
  [("skip", toString skip), ("limit", toString limit)]

/-- `create_pagination_link(rel, base_url, params)` of
`app/utils/link_generation.py`: reads exactly `params['skip']` and
`params['limit']` (a missing key raises `KeyError`, modelled by `none`) and
renders `f"skip={..}&limit={..}"`. -/
def create_pagination_link (rel : String) (base_url : String)
    (params : List (String × String)) : Option PaginationLink :=
  match params.lookup "skip", params.lookup "limit" with
  | some s, some l =>
      some ⟨rel, base_url ++ "?" ++ ("skip=" ++ s ++ "&" ++ "limit=" ++ l),
            [("skip", s), ("limit", l)]⟩
  | _, _ => none

/-- `create_user_links(user_id, request)` of `app/utils/link_generation.py`.
`user_id` is the string form of the UUID as interpolated by the f-strings.
The result is the dict of three `Link`s in insertion order. -/
def create_user_links (user_id : String) : List (String × Link) :=
  [("self",   ⟨"self",   "http://testserver" ++ "/users/" ++ user_id⟩),
   ("update", ⟨"update", "http://testserver" ++ "/users/" ++ user_id⟩),
   ("delete", ⟨"delete", "http://testserver" ++ "/users/" ++ user_id⟩)]

/-- `generate_pagination_links(request, skip, limit, total_items, filters)`
of `app/utils/link_generation.py`.  `filters` models the optional dict
argument (`[]` for `None`/empty, both falsy in `if filters:`).  When
`limit = 0` the `last` link's `(total_items - 1) // limit` raises
`ZeroDivisionError`, modelled by `none`.  The result dict is the association
list in insertion order: `self`, `first`, `last` always, then `next` iff
`skip + limit < total_items`, then `prev` iff `skip > 0`. -/
def generate_pagination_links (skip limit total_items : Int)
    (filters : List (String × String)) :
    Option (List (String × PaginationLink)) :=
  if limit = 0 then none
  else
    some (
      [("self", mkPaginationLink "self"
          (if filters ≠ [] then dictUpdate (pageParams skip limit) filters
           else pageParams skip limit)),
       ("first", mkPaginationLink "first" (pageParams 0 limit)),
       ("last", mkPaginationLink "last"
          (pageParams (max 0 (((total_items - 1).fdiv limit) * limit)) limit))]
      ++ (if skip + limit < total_items then
            [("next", mkPaginationLink "next" (pageParams (skip + limit) limit))]
          else [])
      ++ (if skip > 0 then
            [("prev", mkPaginationLink "prev" (pageParams (max 0 (skip - limit)) limit))]
          else []))

/-! ### Helper lemmas about `dictInsert`/`dictUpdate` -/

theorem mem_dictInsert_self (d : List (String × String)) (kv : String × String) :
    kv ∈ dictInsert d kv := by
  unfold dictInsert
  split
  · rename_i hs
    rw [List.lookup_isSome_iff] at hs
    obtain ⟨p, hp, hpk⟩ := hs
    refine List.mem_map.mpr ⟨p, hp, ?_⟩
    rw [if_pos (beq_iff_eq.mp hpk).symm]
  · exact List.mem_append_right _ (List.mem_singleton.mpr rfl)

theorem mem_dictInsert_of_key_ne (d : List (String × String))
    (kv kv₂ : String × String) (h : kv ∈ d) (hne : kv.1 ≠ kv₂.1) :
    kv ∈ dictInsert d kv₂ := by
  unfold dictInsert
  split
  · refine List.mem_map.mpr ⟨kv, h, ?_⟩
    rw [if_neg hne]
  · exact List.mem_append_left _ h

theorem mem_dictUpdate_of_key_not_mem (kvs : List (String × String)) :
    ∀ (d : List (String × String)) (kv : String × String), kv ∈ d →
      kv.1 ∉ kvs.map Prod.fst → kv ∈ dictUpdate d kvs := by
  induction kvs with
  | nil => intro d kv h _; exact h
  | cons a rest ih =>
      intro d kv h hk
      simp only [List.map_cons, List.mem_cons, not_or] at hk
      exact ih (dictInsert d a) kv (mem_dictInsert_of_key_ne d kv a h hk.1) hk.2

theorem mem_dictUpdate_of_mem (kvs : List (String × String)) :
    ∀ (d : List (String × String)) (kv : String × String), kv ∈ kvs →
      (kvs.map Prod.fst).Nodup → kv ∈ dictUpdate d kvs := by
  induction kvs with
  | nil => intro d kv h _; cases h
  | cons a rest ih =>
      intro d kv h hnd
      simp only [List.map_cons, List.nodup_cons] at hnd
      rcases List.mem_cons.mp h with rfl | hmem
      · refine mem_dictUpdate_of_key_not_mem rest (dictInsert d kv) kv
          (mem_dictInsert_self d kv) hnd.1
      · exact ih (dictInsert d a) kv hmem hnd.2

theorem dictInsert_keys (d : List (String × String)) (kv : String × String) :
    (dictInsert d kv).map Prod.fst = d.map Prod.fst ∨
      (dictInsert d kv).map Prod.fst = d.map Prod.fst ++ [kv.1] := by
  unfold dictInsert
  split
  · left
    rw [List.map_map]
    refine List.map_congr_left ?_
    intro p _
    by_cases hp : p.1 = kv.1
    · simp [Function.comp, hp]
    · simp [Function.comp, hp]
  · right
    simp

theorem dictUpdate_keys (kvs : List (String × String)) :
    ∀ d : List (String × String), ∃ ext : List String,
      (dictUpdate d kvs).map Prod.fst = d.map Prod.fst ++ ext := by
  induction kvs with
  | nil => intro d; exact ⟨[], by simp [dictUpdate]⟩
  | cons a rest ih =>
      intro d
      obtain ⟨ext, hext⟩ := ih (dictInsert d a)
      rcases dictInsert_keys d a with hk | hk
      · exact ⟨ext, by rw [show dictUpdate d (a :: rest) = dictUpdate (dictInsert d a) rest from rfl, hext, hk]⟩
      · exact ⟨a.1 :: ext, by
          rw [show dictUpdate d (a :: rest) = dictUpdate (dictInsert d a) rest from rfl, hext, hk]
          simp⟩

example :
    generate_pagination_links 0 10 25 [] =
      some [("self",  ⟨"self",  "http://testserver/users?skip=0&limit=10",  [("skip","0"),("limit","10")]⟩),
            ("first", ⟨"first", "http://testserver/users?skip=0&limit=10",  [("skip","0"),("limit","10")]⟩),
            ("last",  ⟨"last",  "http://testserver/users?skip=20&limit=10", [("skip","20"),("limit","10")]⟩),
            ("next",  ⟨"next",  "http://testserver/users?skip=10&limit=10", [("skip","10"),("limit","10")]⟩)] := by
  decide

/-- In Python, `((0 - 1) // limit) * limit ≤ 0` for positive `limit`, so the
`last` offset `max(0, ...)` collapses to `0` when `total_items = 0`. -/
theorem last_skip_zero_of_total_zero {limit : Int} (h : 0 < limit) :
    max 0 ((((0 : Int) - 1).fdiv limit) * limit) = 0 := by
  have h1 : ((0 : Int) - 1).fdiv limit < 0 := Int.fdiv_neg' (by omega) h
  have h2 : (((0 : Int) - 1).fdiv limit) * limit ≤ 0 := by nlinarith
  exact max_eq_left h2

/-- **C1.** For `limit > 0`, the returned link set contains a `next` link iff
`skip + limit < total_items`, and a `prev` link iff `skip > 0`. -/
theorem generate_pagination_links_next_prev (skip limit total_items : Int)
    (filters : List (String × String)) (h : 0 < limit) :
    ∀ links, generate_pagination_links skip limit total_items filters = some links →
      (((links.lookup "next").isSome ↔ skip + limit < total_items) ∧
       ((links.lookup "prev").isSome ↔ skip > 0)) := by
  intro links hl
  have hne : limit ≠ 0 := by omega
  rw [generate_pagination_links, if_neg hne, Option.some.injEq] at hl
  subst hl
  by_cases hn : skip + limit < total_items <;> by_cases hp : skip > 0 <;>
    simp [hn, hp, List.lookup_append, List.lookup]

/-- Witness for C1 at `skip = 0`, `limit = 10`, `total_items = 25`. -/
theorem generate_pagination_links_next_prev_witness :
    (0 : Int) < 10 ∧
      ∀ links, generate_pagination_links 0 10 25 [] = some links →
        (((links.lookup "next").isSome ↔ (0 : Int) + 10 < 25) ∧
         ((links.lookup "prev").isSome ↔ (0 : Int) > 0)) :=
  ⟨by decide, generate_pagination_links_next_prev 0 10 25 [] (by decide)⟩

/-- **C2.** For `limit > 0`, the `last` link's `skip` query parameter equals
`max(0, ((total_items - 1) // limit) * limit)` under Python floor division,
and equals `0` when `total_items = 0`. -/
theorem generate_pagination_links_last_skip (skip limit total_items : Int)
    (filters : List (String × String)) (h : 0 < limit) :
    ∀ links, generate_pagination_links skip limit total_items filters = some links →
      ∃ lnk, links.lookup "last" = some lnk ∧
        lnk.params.lookup "skip" =
          some (toString (max 0 (((total_items - 1).fdiv limit) * limit))) ∧
        (total_items = 0 → lnk.params.lookup "skip" = some "0") := by
  intro links hl
  have hne : limit ≠ 0 := by omega
  rw [generate_pagination_links, if_neg hne, Option.some.injEq] at hl
  subst hl
  refine ⟨mkPaginationLink "last"
    (pageParams (max 0 (((total_items - 1).fdiv limit) * limit)) limit), ?_, ?_, ?_⟩
  · simp [List.lookup_append, List.lookup]
  · simp [mkPaginationLink, pageParams, List.lookup]
  · intro h0
    subst h0
    simp only [mkPaginationLink, pageParams, last_skip_zero_of_total_zero h]
    rfl

/-- Witness for C2 at `skip = 0`, `limit = 10`, `total_items = 0`. -/
theorem generate_pagination_links_last_skip_witness :
    (0 : Int) < 10 ∧
      ∀ links, generate_pagination_links 0 10 0 [] = some links →
        ∃ lnk, links.lookup "last" = some lnk ∧
          lnk.params.lookup "skip" =
            some (toString (max 0 ((((0 : Int) - 1).fdiv 10) * 10))) ∧
          ((0 : Int) = 0 → lnk.params.lookup "skip" = some "0") :=
  ⟨by decide, generate_pagination_links_last_skip 0 10 0 [] (by decide)⟩

/-- **C4.** For `limit > 0`, `generate_pagination_links` is total: it returns
a result (no `ZeroDivisionError`) that always contains the `self`, `first`
and `last` links. -/
theorem generate_pagination_links_total (skip limit total_items : Int)
    (filters : List (String × String)) (h : 0 < limit) :
    ∃ links, generate_pagination_links skip limit total_items filters = some links ∧
      (links.lookup "self").isSome ∧ (links.lookup "first").isSome ∧
      (links.lookup "last").isSome := by
  have hne : limit ≠ 0 := by omega
  rw [generate_pagination_links, if_neg hne]
  refine ⟨_, rfl, ?_, ?_, ?_⟩ <;> simp [List.lookup_append, List.lookup]

/-- Witness for C4 at `skip = 5`, `limit = 3`, `total_items = 7`. -/
theorem generate_pagination_links_total_witness :
    (0 : Int) < 3 ∧
      ∃ links, generate_pagination_links 5 3 7 [] = some links ∧
        (links.lookup "self").isSome ∧ (links.lookup "first").isSome ∧
        (links.lookup "last").isSome :=
  ⟨by decide, generate_pagination_links_total 5 3 7 [] (by decide)⟩

theorem mem_ite_singleton {α : Type} {c : Prop} [Decidable c] {x e : α}
    (h : e ∈ (if c then [x] else [])) : e = x := by
  split at h
  · exact List.mem_singleton.mp h
  · cases h

theorem pageParams_keys (s l : Int) :
    (pageParams s l).map Prod.fst = ["skip", "limit"] := rfl

/-- The `self` link's parameter names start with `skip` then `limit`;
filter keys can only be appended after them (or overwrite in place). -/
theorem selfParams_keys (s l : Int) (filters : List (String × String)) :
    ∃ rest, ((if filters ≠ [] then dictUpdate (pageParams s l) filters
              else pageParams s l).map Prod.fst) = "skip" :: "limit" :: rest := by
  by_cases hf : filters ≠ []
  · rw [if_pos hf]
    obtain ⟨ext, hext⟩ := dictUpdate_keys filters (pageParams s l)
    exact ⟨ext, by rw [hext]; rfl⟩
  · rw [if_neg hf]
    exact ⟨[], rfl⟩

/-- Shape of every entry produced by `generate_pagination_links`: the `self`
entry carries the filter-updated parameters, every other entry carries a
plain `skip`/`limit` pair. -/
theorem generate_entry_params (skip limit total_items : Int)
    (filters : List (String × String)) :
    ∀ links, generate_pagination_links skip limit total_items filters = some links →
      ∀ e ∈ links,
        (e.1 = "self" ∧ e.2.params =
          (if filters ≠ [] then dictUpdate (pageParams skip limit) filters
           else pageParams skip limit)) ∨
        (e.1 ≠ "self" ∧ ∃ s, e.2.params = pageParams s limit) := by
  intro links hl
  rw [generate_pagination_links] at hl
  split at hl
  · exact absurd hl (by simp)
  · rw [Option.some.injEq] at hl
    subst hl
    intro e he
    rcases List.mem_append.mp he with h1 | hC
    · rcases List.mem_append.mp h1 with hA | hB
      · rcases List.mem_cons.mp hA with rfl | hA
        · exact Or.inl ⟨rfl, rfl⟩
        rcases List.mem_cons.mp hA with rfl | hA
        · exact Or.inr ⟨by simp, 0, rfl⟩
        rcases List.mem_cons.mp hA with rfl | hA
        · exact Or.inr ⟨by simp, _, rfl⟩
        · cases hA
      · rw [mem_ite_singleton hB]
        exact Or.inr ⟨by simp, _, rfl⟩
    · rw [mem_ite_singleton hC]
      exact Or.inr ⟨by simp, _, rfl⟩

/-- **C5 counterexample.** With a non-empty filters mapping the `self` link
carries parameter names beyond `skip` and `limit`, so not every produced
link uses exactly those two names. -/
theorem pagination_links_params_exact_cex :
    ¬ (∀ links, generate_pagination_links 0 10 25 [("role", "ADMIN")] = some links →
        ∀ e ∈ links, e.2.params.map Prod.fst = ["skip", "limit"]) := by
  intro hclaim
  have hlinks : generate_pagination_links 0 10 25 [("role", "ADMIN")] =
      some [("self", mkPaginationLink "self"
               [("skip", "0"), ("limit", "10"), ("role", "ADMIN")]),
            ("first", mkPaginationLink "first" [("skip", "0"), ("limit", "10")]),
            ("last", mkPaginationLink "last" [("skip", "20"), ("limit", "10")]),
            ("next", mkPaginationLink "next" [("skip", "10"), ("limit", "10")])] := by
    decide
  have h1 := hclaim _ hlinks
    ("self", mkPaginationLink "self"
      [("skip", "0"), ("limit", "10"), ("role", "ADMIN")]) (by decide)
  exact absurd h1 (by decide)

/-- **C5 (amended).** Every pagination link's query parameters begin with
`skip` followed by `limit`, in that order; every link other than `self`
(and every link built by `create_pagination_link`) carries exactly those two
parameter names, while `self` may append filter parameters after them. -/
theorem pagination_links_param_order (skip limit total_items : Int)
    (filters : List (String × String)) :
    (∀ links, generate_pagination_links skip limit total_items filters = some links →
      ∀ e ∈ links, ∃ rest, e.2.params.map Prod.fst = "skip" :: "limit" :: rest ∧
        (e.1 ≠ "self" → rest = [])) ∧
    (∀ rel base params lnk, create_pagination_link rel base params = some lnk →
      lnk.params.map Prod.fst = ["skip", "limit"]) := by
  constructor
  · intro links hl e he
    rcases generate_entry_params skip limit total_items filters links hl e he with
      ⟨h1, h2⟩ | ⟨h1, s, h2⟩
    · obtain ⟨rest, hrest⟩ := selfParams_keys skip limit filters
      exact ⟨rest, by rw [h2]; exact hrest, fun hne => absurd h1 hne⟩
    · exact ⟨[], by rw [h2]; rfl, fun _ => rfl⟩
  · intro rel base params lnk hl
    rw [create_pagination_link] at hl
    split at hl
    · rw [Option.some.injEq] at hl
      rw [← hl]
      rfl
    · cases hl

/-- Witness for C5 (amended) at `skip = 0`, `limit = 10`, `total = 25`,
`filters = [("role", "ADMIN")]`, instantiated at the concrete link list. -/
theorem pagination_links_param_order_witness :
    ∀ e ∈ [("self", mkPaginationLink "self"
              [("skip", "0"), ("limit", "10"), ("role", "ADMIN")]),
           ("first", mkPaginationLink "first" [("skip", "0"), ("limit", "10")]),
           ("last", mkPaginationLink "last" [("skip", "20"), ("limit", "10")]),
           ("next", mkPaginationLink "next" [("skip", "10"), ("limit", "10")])],
      ∃ rest, e.2.params.map Prod.fst = "skip" :: "limit" :: rest ∧
        (e.1 ≠ "self" → rest = []) :=
  (pagination_links_param_order 0 10 25 [("role", "ADMIN")]).1 _ (by decide)

/-- **C6.** `create_user_links` returns exactly the three links `self`,
`update`, `delete`, each with href `{base}/users/{id}`. -/
theorem create_user_links_shape (user_id : String) :
    (create_user_links user_id).map Prod.fst = ["self", "update", "delete"] ∧
    ∀ e ∈ create_user_links user_id,
      e.2.rel = e.1 ∧ e.2.href = "http://testserver/users/" ++ user_id := by
  refine ⟨rfl, ?_⟩
  intro e he
  simp only [create_user_links, List.mem_cons, List.not_mem_nil, or_false] at he
  rcases he with rfl | rfl | rfl <;> exact ⟨rfl, rfl⟩

/-- Witness for C6 at a concrete identifier. -/
theorem create_user_links_shape_witness :
    (create_user_links "42").map Prod.fst = ["self", "update", "delete"] ∧
    ∀ e ∈ create_user_links "42",
      e.2.rel = e.1 ∧ e.2.href = "http://testserver/users/" ++ "42" :=
  create_user_links_shape "42"

/-- **C10.** With a non-empty filters mapping (distinct keys, as a Python
dict), every filter pair appears among the `self` link's query parameters,
while every other produced link carries exactly the parameter names `skip`
and `limit` — the filters are dropped there. -/
theorem filters_only_in_self (skip limit total_items : Int)
    (filters : List (String × String)) (hf : filters ≠ [])
    (hnd : (filters.map Prod.fst).Nodup) :
    ∀ links, generate_pagination_links skip limit total_items filters = some links →
      (∃ lnk, links.lookup "self" = some lnk ∧ ∀ kv ∈ filters, kv ∈ lnk.params) ∧
      (∀ e ∈ links, e.1 ≠ "self" → e.2.params.map Prod.fst = ["skip", "limit"]) := by
  intro links hl
  constructor
  · rw [generate_pagination_links] at hl
    split at hl
    · exact absurd hl (by simp)
    · rw [Option.some.injEq] at hl
      subst hl
      refine ⟨mkPaginationLink "self"
        (if filters ≠ [] then dictUpdate (pageParams skip limit) filters
         else pageParams skip limit), ?_, ?_⟩
      · simp [List.lookup_append, List.lookup, hf]
      · intro kv hkv
        show kv ∈ (if filters ≠ [] then dictUpdate (pageParams skip limit) filters
                   else pageParams skip limit)
        rw [if_pos hf]
        exact mem_dictUpdate_of_mem filters (pageParams skip limit) kv hkv hnd
  · intro e he hne
    rcases generate_entry_params skip limit total_items filters links hl e he with
      ⟨h1, _⟩ | ⟨_, s, h2⟩
    · exact absurd h1 hne
    · rw [h2]; rfl

/-- Witness for C10 at `skip = 0`, `limit = 10`, `total = 25`,
`filters = [("role", "ADMIN")]`. -/
theorem filters_only_in_self_witness :
    ([("role", "ADMIN")] : List (String × String)) ≠ [] ∧
      (∀ links, generate_pagination_links 0 10 25 [("role", "ADMIN")] = some links →
        (∃ lnk, links.lookup "self" = some lnk ∧
          ∀ kv ∈ ([("role", "ADMIN")] : List (String × String)), kv ∈ lnk.params) ∧
        (∀ e ∈ links, e.1 ≠ "self" →
          e.2.params.map Prod.fst = ["skip", "limit"])) :=
  ⟨by decide, filters_only_in_self 0 10 25 [("role", "ADMIN")] (by decide) (by decide)⟩

/-! ### `app/routers/user_routes.py`: the register and login handlers -/

/-- `fastapi.HTTPException` as raised by the route handlers: an HTTP status
code and a detail string. -/
structure HTTPException where
  status_code : Nat
  detail : String
deriving Repr, DecidableEq

/-- `str(e)` applied to an `HTTPException`, as the blanket
`except Exception as e: raise HTTPException(500, detail=str(e))` handlers
do: the status code and detail rendered as text. -/
def excStr (e : HTTPException) : String :=
  toString e.status_code ++ ": " ++ e.detail

/-- A stored user record, restricted to the fields the register flow's
duplicate checks inspect. -/
structure StoredUser where
  email : String
  nickname : String
deriving Repr, DecidableEq

/-- Modelled from the spec: `UserService.get_by_email`
(`app/services/user_service.py` is not under `src/`): returns the user with
the given unique email, or a not-found indicator. -/
def get_by_email (db : List StoredUser) (email : String) : Option StoredUser :=
  db.find? (fun u => u.email == email)

/-- Modelled from the spec: `UserService.get_by_nickname`: returns the user
with the given unique nickname, or a not-found indicator. -/
def get_by_nickname (db : List StoredUser) (nickname : String) : Option StoredUser :=
  db.find? (fun u => u.nickname == nickname)

/-- Modelled from the spec: `UserService.create`: persists a new user record
built from the request data and returns it. -/
def createUser (db : List StoredUser) (u : StoredUser) :
    StoredUser × List StoredUser :=
  (u, db ++ [u])

/-- The `try:` body of the `register` handler: duplicate-email check
(`HTTPException(400, "Email already registered")`), duplicate-nickname check
(`HTTPException(400, "Nickname already taken")`), then user creation. -/
def registerTryBody (db : List StoredUser) (user_data : StoredUser) :
    Except HTTPException (StoredUser × List StoredUser) :=
  if (get_by_email db user_data.email).isSome then
    .error ⟨400, "Email already registered"⟩
  else if (get_by_nickname db user_data.nickname).isSome then
    .error ⟨400, "Nickname already taken"⟩
  else
    .ok (createUser db user_data)

/-- The `register` handler. Its `except Exception as e:` clause catches every
exception raised in the `try:` body — including the `HTTPException(400, ...)`
the body itself raises, since FastAPI's `HTTPException` subclasses
`Exception` and `register` (unlike `login`) has no `except HTTPException:
raise` arm — and re-raises `HTTPException(500, str(e))`. The handler returns
the response (or error) together with the resulting user table. -/
def register (db : List StoredUser) (user_data : StoredUser) :
    Except HTTPException StoredUser × List StoredUser :=
  match registerTryBody db user_data with
  | .ok (created, db2) => (.ok created, db2)
  | .error e => (.error ⟨500, excStr e⟩, db)

/-- **C3 (code evaluated at the failing input).** Registering an email that
already belongs to an existing user creates no second record, but the caller
receives HTTP 500 carrying the stringified 400 error — not a Conflict-status
client error — because the handler's blanket `except Exception` re-wraps its
own `HTTPException(400, "Email already registered")`. -/
theorem register_duplicate_email_eval :
    register [⟨"alice@example.com", "alice"⟩] ⟨"alice@example.com", "bob"⟩ =
      (.error ⟨500, "400: Email already registered"⟩,
       [⟨"alice@example.com", "alice"⟩]) := by
  rfl

/-- A user as the login flow sees it: the email and the role's enum member
name (code passes `str(user.role.name)`). -/
structure AuthUser where
  email : String
  role_name : String
deriving Repr, DecidableEq

/-- Modelled from the spec: `JWTService.create_access_token`
(`app/services/jwt_service.py` is not under `src/`). Per the spec the issued
token embeds the given claims data plus the standard expiry claim derived
from current time + ttl; the signed encoding is abstracted away and the
payload kept as an association list of claims. -/
def create_access_token (data : List (String × String))
    (expires_delta_minutes now : Int) : List (String × String) :=
  data ++ [("exp", toString (now + expires_delta_minutes * 60))]

/-- `app/schemas/token_schema.py` `TokenResponse` as the login handler builds
it: the issued access token (kept as its claims payload) and the token type. -/
structure TokenResponse where
  access_token : List (String × String)
  token_type : String
deriving Repr, DecidableEq

/-- The `login` handler. `locked` is the result of
`UserService.is_account_locked`, `auth` the user returned by
`UserService.login_user` (`none` for bad credentials); both collaborators
live outside `src/`. The handler checks the lockout first, then the
credentials, then issues the bearer token; its `except HTTPException: raise`
arm re-raises the two client errors unchanged. -/
def login (locked : Bool) (auth : Option AuthUser)
    (access_token_expire_minutes now : Int) :
    Except HTTPException TokenResponse :=
  if locked then
    .error ⟨400, "Account locked due to too many failed login attempts."⟩
  else
    match auth with
    | none => .error ⟨401, "Incorrect email or password"⟩
    | some user =>
        .ok ⟨create_access_token [("sub", user.email), ("role", user.role_name)]
              access_token_expire_minutes now, "bearer"⟩

/-- **C7.** Every access token issued by a successful login carries exactly
the claims `sub` (the user's email), `role` (the role name string), and the
expiry claim derived from the configured expiry minutes. -/
theorem login_token_claims (locked : Bool) (auth : Option AuthUser)
    (em now : Int) (resp : TokenResponse)
    (h : login locked auth em now = .ok resp) :
    ∃ u, auth = some u ∧
      resp.access_token.map Prod.fst = ["sub", "role", "exp"] ∧
      resp.access_token.lookup "sub" = some u.email ∧
      resp.access_token.lookup "role" = some u.role_name ∧
      resp.access_token.lookup "exp" = some (toString (now + em * 60)) := by
  unfold login at h
  split at h
  · exact absurd h (by simp)
  · cases hauth : auth with
    | none => rw [hauth] at h; exact absurd h (by simp)
    | some u =>
        rw [hauth] at h
        have h2 : Except.ok (ε := HTTPException)
            (⟨create_access_token [("sub", u.email), ("role", u.role_name)] em now,
              "bearer"⟩ : TokenResponse) = .ok resp := h
        rw [Except.ok.injEq] at h2
        subst h2
        exact ⟨u, rfl, rfl, rfl, rfl, rfl⟩

/-- Witness for C7: a successful login at concrete inputs. -/
theorem login_token_claims_witness :
    ∃ u, (some (⟨"a@b.c", "AUTHENTICATED"⟩ : AuthUser) = some u) ∧
      ([("sub", "a@b.c"), ("role", "AUTHENTICATED"), ("exp", "1800")]
          : List (String × String)).map Prod.fst = ["sub", "role", "exp"] ∧
      ([("sub", "a@b.c"), ("role", "AUTHENTICATED"), ("exp", "1800")]
          : List (String × String)).lookup "sub" = some u.email ∧
      ([("sub", "a@b.c"), ("role", "AUTHENTICATED"), ("exp", "1800")]
          : List (String × String)).lookup "role" = some u.role_name ∧
      ([("sub", "a@b.c"), ("role", "AUTHENTICATED"), ("exp", "1800")]
          : List (String × String)).lookup "exp" =
        some (toString ((0 : Int) + 30 * 60)) :=
  login_token_claims false (some ⟨"a@b.c", "AUTHENTICATED"⟩) 30 0
    ⟨[("sub", "a@b.c"), ("role", "AUTHENTICATED"), ("exp", "1800")], "bearer"⟩
    (by rfl)

/-- **C8.** The login endpoint fails with the lockout condition (HTTP 400,
lockout detail) when the account is locked — checked before the credentials
are verified — fails with 401 Unauthorized when the credentials do not
authenticate a user, and otherwise returns a bearer access token. -/
theorem login_taxonomy (locked : Bool) (auth : Option AuthUser) (em now : Int) :
    (locked = true →
      login locked auth em now =
        .error ⟨400, "Account locked due to too many failed login attempts."⟩) ∧
    (locked = false → auth = none →
      login locked auth em now = .error ⟨401, "Incorrect email or password"⟩) ∧
    (locked = false → ∀ u, auth = some u →
      ∃ resp, login locked auth em now = .ok resp ∧ resp.token_type = "bearer") := by
  refine ⟨?_, ?_, ?_⟩
  · intro hl; subst hl; rfl
  · intro hl ha; subst hl; subst ha; rfl
  · intro hl u ha; subst hl; subst ha
    exact ⟨_, rfl, rfl⟩

/-- Witness for C8: all three branches at concrete inputs. -/
theorem login_taxonomy_witness :
    (login true none 30 0 =
      .error ⟨400, "Account locked due to too many failed login attempts."⟩) ∧
    (login false none 30 0 = .error ⟨401, "Incorrect email or password"⟩) ∧
    (∃ resp, login false (some ⟨"a@b.c", "USER"⟩) 30 0 = .ok resp ∧
      resp.token_type = "bearer") :=
  ⟨(login_taxonomy true none 30 0).1 rfl,
   (login_taxonomy false none 30 0).2.1 rfl rfl,
   (login_taxonomy false (some ⟨"a@b.c", "USER"⟩) 30 0).2.2 rfl
     ⟨"a@b.c", "USER"⟩ rfl⟩

/-! ### `app/utils/smtp_connection.py`: `SMTPClient.send_email` -/

/-- Observable steps of one `send_email` call on the mail transport. -/
inductive SMTPEvent where
  | connected         -- `smtplib.SMTP(host, port)` opened the session
  | starttls_attempt  -- `server.starttls()`
  | login_attempt     -- `server.login(user, pass)`
  | send_attempt      -- `server.send_message(message)`
  | closed            -- the `with` block released the session
deriving Repr, DecidableEq

/-- Which external transport steps succeed during one call; stands for the
SMTP server's behaviour. -/
structure SMTPWorld where
  connect_ok : Bool
  starttls_ok : Bool
  login_ok : Bool
  send_ok : Bool

/-- `SMTPClient.__init__` state; only `use_tls` steers the control flow. -/
structure SMTPClient where
  smtp_host : String
  smtp_port : Int
  smtp_user : String
  smtp_pass : String
  use_tls : Bool

/-- `SMTPClient.send_email(subject, content, html_content, recipient)`.
`content_to_send = html_content or content` (Python truthiness on the empty
string folded into `Option`); with both absent, `MIMEText(None)` raises
before any session exists.  The `with smtplib.SMTP(...) as server:` block
releases the session on every exit once it was entered; each transport step
is attempted at most once; the `except Exception` clause only logs and
re-raises, so every failure propagates to the caller.  The result is the
outcome (`.ok` for a sent message, `.error` for the propagated exception)
paired with the trace of transport events. -/
def send_email (c : SMTPClient) (content html_content : Option String)
    (w : SMTPWorld) : Except String Unit × List SMTPEvent :=
  match html_content.orElse (fun _ => content) with
  | none => (.error "TypeError: no message body", [])
  | some _ =>
    if !w.connect_ok then
      (.error "SMTPConnectError", [])
    else if c.use_tls && !w.starttls_ok then
      (.error "SMTPHeloError",
       [.connected, .starttls_attempt, .closed])
    else if !w.login_ok then
      (.error "SMTPAuthenticationError",
       [.connected] ++ (if c.use_tls then [SMTPEvent.starttls_attempt] else [])
         ++ [.login_attempt, .closed])
    else if !w.send_ok then
      (.error "SMTPDataError",
       [.connected] ++ (if c.use_tls then [SMTPEvent.starttls_attempt] else [])
         ++ [.login_attempt, .send_attempt, .closed])
    else
      (.ok (),
       [.connected] ++ (if c.use_tls then [SMTPEvent.starttls_attempt] else [])
         ++ [.login_attempt, .send_attempt, .closed])

/-- **C9.** For every `send_email` call: the transport session is released
whenever it was opened (even on failure), at most one send attempt is made
(exactly one on success — no retry), and a failure of any step is propagated
to the caller rather than swallowed: the call succeeds iff the message could
be built and every transport step succeeded. -/
theorem send_email_session_discipline (c : SMTPClient)
    (content html_content : Option String) (w : SMTPWorld) :
    (SMTPEvent.connected ∈ (send_email c content html_content w).2 →
      SMTPEvent.closed ∈ (send_email c content html_content w).2) ∧
    ((send_email c content html_content w).2.count SMTPEvent.send_attempt ≤ 1) ∧
    ((send_email c content html_content w).1 = .ok () →
      (send_email c content html_content w).2.count SMTPEvent.send_attempt = 1) ∧
    ((send_email c content html_content w).1 = .ok () ↔
      ((html_content.orElse (fun _ => content)).isSome ∧
        w.connect_ok = true ∧ (c.use_tls = true → w.starttls_ok = true) ∧
        w.login_ok = true ∧ w.send_ok = true)) := by
  rcases hbody : html_content.orElse (fun _ => content) with _ | body <;>
    rcases c with ⟨ho, po, us, pa, tls⟩ <;>
    rcases w with ⟨cok, sok, lok, dok⟩ <;>
    rcases tls <;> rcases cok <;> rcases sok <;> rcases lok <;> rcases dok <;>
    simp [send_email, hbody]

/-- Witness for C9: the all-success world at a concrete client. -/
theorem send_email_session_discipline_witness :
    (SMTPEvent.connected ∈
        (send_email ⟨"smtp.example.com", 587, "user", "pass", true⟩
          none (some "<p>hi</p>") ⟨true, true, true, true⟩).2 →
      SMTPEvent.closed ∈
        (send_email ⟨"smtp.example.com", 587, "user", "pass", true⟩
          none (some "<p>hi</p>") ⟨true, true, true, true⟩).2) ∧
    ((send_email ⟨"smtp.example.com", 587, "user", "pass", true⟩
        none (some "<p>hi</p>") ⟨true, true, true, true⟩).2.count
          SMTPEvent.send_attempt ≤ 1) ∧
    ((send_email ⟨"smtp.example.com", 587, "user", "pass", true⟩
        none (some "<p>hi</p>") ⟨true, true, true, true⟩).1 = .ok () →
      (send_email ⟨"smtp.example.com", 587, "user", "pass", true⟩
        none (some "<p>hi</p>") ⟨true, true, true, true⟩).2.count
          SMTPEvent.send_attempt = 1) ∧
    ((send_email ⟨"smtp.example.com", 587, "user", "pass", true⟩
        none (some "<p>hi</p>") ⟨true, true, true, true⟩).1 = .ok () ↔
      (((some "<p>hi</p>" : Option String).orElse
          (fun _ => (none : Option String))).isSome ∧
        true = true ∧ (true = true → true = true) ∧
        true = true ∧ true = true)) :=
  send_email_session_discipline ⟨"smtp.example.com", 587, "user", "pass", true⟩
    none (some "<p>hi</p>") ⟨true, true, true, true⟩

end EventManager
